import Mathlib

/-!
Verification of the scap-client command-line interface
(src/scap_client/cli.py) against its natural-language specification.

The client is embedded shallowly: each command handler is a Lean function
from the Service state and the parsed arguments to its observable effects
(the remote calls it issues in order, the lines it prints to stdout, and
whether it returns normally or lets a Python exception escape).  The
daemon-side Task/Result Service is not part of this repository; its query
surface is modelled from the specification (section 4.1).
-/

/-- A fault escaping a client function as a Python exception: the NotFoundError
signalled by the Service across the bus, or the RuntimeError raised by main on
an unknown action. -/
inductive Fault where
  | notFound
  | runtimeError (msg : String)
  deriving DecidableEq, Repr

/-- Modelled from the spec: the Task/Result Service state seen by the query
surface that cli.py uses, a finite association of task ids to titles
(spec section 3: Task has a unique integer id and an immutable title).
The daemon owning this state is not present in the repository. -/
structure Service where
  tasks : List (Int × String)
  deriving DecidableEq, Repr

/-- Modelled from the spec: ListTaskIDs returns all currently known task
identifiers, empty when no tasks exist, and never fails. -/
def Service.listTaskIDs (s : Service) : List Int :=
  s.tasks.map Prod.fst

/-- Modelled from the spec: GetTaskTitle answers the title of a known task and
signals NotFoundError when the id does not correspond to a known task. -/
def Service.getTaskTitle (s : Service) (taskId : Int) : Except Fault String :=
  match s.tasks.lookup taskId with
  | some title => .ok title
  | none => .error .notFound

/-- One remote call issued by the client over the bus. -/
inductive DBusCall where
  | listTaskIDsCall
  | getTaskTitleCall (taskId : Int)
  deriving DecidableEq, Repr

/-- Observable effect of one client command handler: the remote calls it issued
in order, the lines it printed, and whether it returned normally or let an
exception escape. -/
structure CmdEffects where
  calls : List DBusCall
  lines : List String
  result : Except Fault Unit
  deriving Repr

/-- The for-loop of cli_task when no task id was given: for each id returned by
ListTaskIDs, call GetTaskTitle (an exception aborts the loop and escapes) and
print one summary line "%i\t\t%s\t\t..." built from the id and the title. -/
def cliTaskLoop (s : Service) : List Int → CmdEffects
  | [] => ⟨[], [], .ok ()⟩
  | taskId :: rest =>
    match s.getTaskTitle taskId with
    | .error e => ⟨[.getTaskTitleCall taskId], [], .error e⟩
    | .ok title =>
      let k := cliTaskLoop s rest
      ⟨.getTaskTitleCall taskId :: k.calls,
       (toString taskId ++ "\t\t" ++ title ++ "\t\t...") :: k.lines,
       k.result⟩

/-- cli_task: without an id, call ListTaskIDs and run the summary loop; with an
id, call GetTaskTitle and print the "ID:\t%i" and "Title:\t%s" lines.  There is
no exception handling anywhere in the function. -/
def cliTask (s : Service) (taskId? : Option Int) : CmdEffects :=
  match taskId? with
  | none =>
    let k := cliTaskLoop s s.listTaskIDs
    ⟨.listTaskIDsCall :: k.calls, k.lines, k.result⟩
  | some taskId =>
    match s.getTaskTitle taskId with
    | .error e => ⟨[.getTaskTitleCall taskId], [], .error e⟩
    | .ok title =>
      ⟨[.getTaskTitleCall taskId],
       ["ID:\t" ++ toString taskId, "Title:\t" ++ title],
       .ok ()⟩

/-- The argparse namespace after a successful parse_args: action is set by
set_defaults on the chosen subparser; task_id, result_id and fmt (the FORMAT
positional) come from the positional arguments, fmt defaulting to "arf". -/
structure Args where
  action : String
  task_id : Option Int
  result_id : Option Int
  fmt : String
  deriving DecidableEq, Repr

/-- cli_status is a bare pass statement: no calls, no output, normal return. -/
def cliStatus (s : Service) (args : Args) : CmdEffects :=
  ⟨[], [], .ok ()⟩

/-- cli_results is a bare pass statement: no calls, no output, normal return. -/
def cliResults (s : Service) (args : Args) : CmdEffects :=
  ⟨[], [], .ok ()⟩

/-- An argument vector rejected by argparse: usage is printed and the process
exits with status 2. -/
inductive ParseError where
  | usage
  deriving DecidableEq, Repr

/-- Decimal value of a list of digit characters. -/
def digitsToNat (cs : List Char) : Nat :=
  cs.foldl (fun a c => 10 * a + (c.toNat - 48)) 0

/-- Models Python int(...) as used by argparse type=int: an optionally signed
nonempty string of decimal digits. -/
def pyInt (s : String) : Option Int :=
  match s.data with
  | [] => none
  | '-' :: cs =>
    if cs.isEmpty ∨ ¬ cs.all Char.isDigit then none
    else some (-(digitsToNat cs : Int))
  | '+' :: cs =>
    if cs.isEmpty ∨ ¬ cs.all Char.isDigit then none
    else some (digitsToNat cs : Int)
  | cs =>
    if ¬ cs.all Char.isDigit then none
    else some (digitsToNat cs : Int)

/-- The task subparser: one optional positional TASK_ID of type int. -/
def parseTaskRest (rest : List String) : Except ParseError Args :=
  match rest with
  | [] => .ok ⟨"task", none, none, "arf"⟩
  | [x] =>
    match pyInt x with
    | some n => .ok ⟨"task", some n, none, "arf"⟩
    | none => .error .usage
  | _ => .error .usage

/-- The status subparser: no arguments. -/
def parseStatusRest (rest : List String) : Except ParseError Args :=
  match rest with
  | [] => .ok ⟨"status", none, none, "arf"⟩
  | _ => .error .usage

/-- The result subparser: required TASK_ID of type int, optional RESULT_ID of
type int, optional FORMAT restricted by choices to "html" or "arf" with
default "arf".  argparse assigns positional strings left to right, so a second
positional is always matched against RESULT_ID (type int) and only a third one
against FORMAT. -/
def parseResultRest (rest : List String) : Except ParseError Args :=
  match rest with
  | [t] =>
    match pyInt t with
    | some n => .ok ⟨"result", some n, none, "arf"⟩
    | none => .error .usage
  | [t, r] =>
    match pyInt t with
    | none => .error .usage
    | some n =>
      match pyInt r with
      | none => .error .usage
      | some m => .ok ⟨"result", some n, some m, "arf"⟩
  | [t, r, f] =>
    match pyInt t with
    | none => .error .usage
    | some n =>
      match pyInt r with
      | none => .error .usage
      | some m =>
        if f = "html" ∨ f = "arf" then .ok ⟨"result", some n, some m, f⟩
        else .error .usage
  | _ => .error .usage

/-- Models parser.parse_args on the argument vector after the program name:
one of the three subcommands must be chosen (Python 2 argparse treats the
subparser action as required); anything else is a usage error. -/
def parseArgs (argv : List String) : Except ParseError Args :=
  match argv with
  | [] => .error .usage
  | cmd :: rest =>
    if cmd = "task" then parseTaskRest rest
    else if cmd = "status" then parseStatusRest rest
    else if cmd = "result" then parseResultRest rest
    else .error .usage

/-- A single apostrophe character, as used by the RuntimeError message. -/
def apos : String :=
  String.singleton (Char.ofNat 39)

/-- The dispatch at the end of main: compare args.action against the three
known actions and call the matching handler; any other action would raise
RuntimeError. -/
def dispatch (s : Service) (args : Args) : CmdEffects :=
  if args.action = "task" then cliTask s args.task_id
  else if args.action = "status" then cliStatus s args
  else if args.action = "result" then cliResults s args
  else ⟨[], [],
        .error (.runtimeError ("Unknown action " ++ apos ++ args.action ++ apos ++ "."))⟩

/-- How a process run ends: an explicit exit code (sys.exit, argparse usage
error, or the normal return of main, which exits 0), or an exception that was
never handled, which makes the interpreter print a traceback and exit
non-zero. -/
inductive Outcome where
  | exited (code : Nat)
  | uncaught (f : Fault)
  deriving DecidableEq, Repr

/-- Observable behaviour of one whole process invocation. -/
structure RunResult where
  calls : List DBusCall
  lines : List String
  outcome : Outcome
  deriving Repr

/-- The connection failure message printed by main. -/
def connectErrorLine : String :=
  "Error: Failed to connect to SCAP Client dbus interface."

/-- main: acquire the bus interface first; when that yields nothing, print the
error line and sys.exit(1) before the parser is even built.  Otherwise parse
argv (a usage error makes argparse exit 2) and dispatch on the action; an
exception escaping a handler is never caught. -/
def mainRun (conn : Option Service) (argv : List String) : RunResult :=
  match conn with
  | none => ⟨[], [connectErrorLine], .exited 1⟩
  | some s =>
    match parseArgs argv with
    | .error _ => ⟨[], [], .exited 2⟩
    | .ok args =>
      let k := dispatch s args
      match k.result with
      | .ok _ => ⟨k.calls, k.lines, .exited 0⟩
      | .error f => ⟨k.calls, k.lines, .uncaught f⟩

-- Helper lemmas ----------------------------------------------------------

theorem lookup_isSome_of_mem_fst (l : List (Int × String)) (i : Int)
    (h : i ∈ l.map Prod.fst) : (l.lookup i).isSome := by
  induction l with
  | nil => simp at h
  | cons p t ih =>
    obtain ⟨a, b⟩ := p
    simp only [List.map_cons, List.mem_cons] at h
    by_cases hia : i = a
    · subst hia
      simp [List.lookup]
    · have hmem : i ∈ t.map Prod.fst := by
        rcases h with h | h
        · exact absurd h hia
        · exact h
      have hbeq : (i == a) = false := by
        simp [hia]
      simpa [List.lookup, hbeq] using ih hmem

theorem cliTaskLoop_spec (s : Service) (ids : List Int)
    (h : ∀ i ∈ ids, (s.tasks.lookup i).isSome) :
    cliTaskLoop s ids =
      ⟨ids.map DBusCall.getTaskTitleCall,
       ids.map (fun i =>
         toString i ++ "\t\t" ++ ((s.tasks.lookup i).getD "") ++ "\t\t..."),
       .ok ()⟩ := by
  induction ids with
  | nil => rfl
  | cons i rest ih =>
    have hi : (s.tasks.lookup i).isSome := h i (List.mem_cons_self i rest)
    obtain ⟨title, ht⟩ := Option.isSome_iff_exists.mp hi
    have hrest : ∀ j ∈ rest, (s.tasks.lookup j).isSome := by
      intro j hj
      exact h j (List.mem_cons_of_mem i hj)
    simp [cliTaskLoop, Service.getTaskTitle, ht, ih hrest]

theorem cliTaskLoop_result (s : Service) (ids : List Int) :
    (cliTaskLoop s ids).result = .ok () ∨
    (cliTaskLoop s ids).result = .error .notFound := by
  induction ids with
  | nil => exact Or.inl rfl
  | cons i rest ih =>
    cases hl : s.tasks.lookup i with
    | none =>
      right
      simp [cliTaskLoop, Service.getTaskTitle, hl]
    | some t =>
      simpa [cliTaskLoop, Service.getTaskTitle, hl] using ih

theorem cliTask_result (s : Service) (taskId? : Option Int) :
    (cliTask s taskId?).result = .ok () ∨
    (cliTask s taskId?).result = .error .notFound := by
  cases taskId? with
  | none => simpa [cliTask] using cliTaskLoop_result s s.listTaskIDs
  | some i =>
    cases hl : s.tasks.lookup i with
    | none => right; simp [cliTask, Service.getTaskTitle, hl]
    | some t => left; simp [cliTask, Service.getTaskTitle, hl]

theorem parseArgs_task_red (rest : List String) :
    parseArgs (("task") :: rest) = parseTaskRest rest := rfl

theorem parseArgs_status_red (rest : List String) :
    parseArgs (("status") :: rest) = parseStatusRest rest := rfl

theorem parseArgs_result_red (rest : List String) :
    parseArgs (("result") :: rest) = parseResultRest rest := rfl

theorem parseTaskRest_action (rest : List String) (args : Args)
    (h : parseTaskRest rest = .ok args) : args.action = "task" := by
  match rest with
  | [] =>
    injection h with h2
    rw [← h2]
  | [x] =>
    cases hpx : pyInt x with
    | none =>
      rw [parseTaskRest, hpx] at h
      exact Except.noConfusion h
    | some n =>
      rw [parseTaskRest, hpx] at h
      injection h with h2
      rw [← h2]
  | x :: y :: rest2 =>
    exact Except.noConfusion h

theorem parseStatusRest_action (rest : List String) (args : Args)
    (h : parseStatusRest rest = .ok args) : args.action = "status" := by
  match rest with
  | [] =>
    injection h with h2
    rw [← h2]
  | x :: rest2 =>
    exact Except.noConfusion h

theorem parseResultRest_action (rest : List String) (args : Args)
    (h : parseResultRest rest = .ok args) : args.action = "result" := by
  match rest with
  | [] => exact Except.noConfusion h
  | [t] =>
    cases hpt : pyInt t with
    | none =>
      rw [parseResultRest, hpt] at h
      exact Except.noConfusion h
    | some n =>
      rw [parseResultRest, hpt] at h
      injection h with h2
      rw [← h2]
  | [t, r] =>
    cases hpt : pyInt t with
    | none =>
      rw [parseResultRest, hpt] at h
      exact Except.noConfusion h
    | some n =>
      cases hpr : pyInt r with
      | none =>
        rw [parseResultRest, hpt, hpr] at h
        exact Except.noConfusion h
      | some m =>
        rw [parseResultRest, hpt, hpr] at h
        injection h with h2
        rw [← h2]
  | [t, r, f] =>
    cases hpt : pyInt t with
    | none =>
      rw [parseResultRest, hpt] at h
      exact Except.noConfusion h
    | some n =>
      cases hpr : pyInt r with
      | none =>
        rw [parseResultRest, hpt, hpr] at h
        exact Except.noConfusion h
      | some m =>
        simp only [parseResultRest, hpt, hpr] at h
        by_cases hc : f = "html" ∨ f = "arf"
        · rw [if_pos hc] at h
          injection h with h2
          rw [← h2]
        · rw [if_neg hc] at h
          exact Except.noConfusion h
  | t :: r :: f :: x :: rest2 =>
    exact Except.noConfusion h

theorem parseResultRest_fmt (rest : List String) (args : Args)
    (h : parseResultRest rest = .ok args) :
    args.fmt = "arf" ∨ args.fmt = "html" := by
  match rest with
  | [] => exact Except.noConfusion h
  | [t] =>
    cases hpt : pyInt t with
    | none =>
      rw [parseResultRest, hpt] at h
      exact Except.noConfusion h
    | some n =>
      rw [parseResultRest, hpt] at h
      injection h with h2
      rw [← h2]
      exact Or.inl rfl
  | [t, r] =>
    cases hpt : pyInt t with
    | none =>
      rw [parseResultRest, hpt] at h
      exact Except.noConfusion h
    | some n =>
      cases hpr : pyInt r with
      | none =>
        rw [parseResultRest, hpt, hpr] at h
        exact Except.noConfusion h
      | some m =>
        rw [parseResultRest, hpt, hpr] at h
        injection h with h2
        rw [← h2]
        exact Or.inl rfl
  | [t, r, f] =>
    cases hpt : pyInt t with
    | none =>
      rw [parseResultRest, hpt] at h
      exact Except.noConfusion h
    | some n =>
      cases hpr : pyInt r with
      | none =>
        rw [parseResultRest, hpt, hpr] at h
        exact Except.noConfusion h
      | some m =>
        simp only [parseResultRest, hpt, hpr] at h
        by_cases hc : f = "html" ∨ f = "arf"
        · rw [if_pos hc] at h
          injection h with h2
          rw [← h2]
          exact hc.symm
        · rw [if_neg hc] at h
          exact Except.noConfusion h
  | t :: r :: f :: x :: rest2 =>
    exact Except.noConfusion h

theorem parseArgs_ok_action (argv : List String) (args : Args)
    (h : parseArgs argv = .ok args) :
    args.action = "task" ∨ args.action = "status" ∨ args.action = "result" := by
  cases argv with
  | nil => exact Except.noConfusion h
  | cons cmd rest =>
    by_cases h1 : cmd = "task"
    · subst h1
      rw [parseArgs_task_red] at h
      exact Or.inl (parseTaskRest_action rest args h)
    · by_cases h2 : cmd = "status"
      · subst h2
        rw [parseArgs_status_red] at h
        exact Or.inr (Or.inl (parseStatusRest_action rest args h))
      · by_cases h3 : cmd = "result"
        · subst h3
          rw [parseArgs_result_red] at h
          exact Or.inr (Or.inr (parseResultRest_action rest args h))
        · rw [parseArgs, if_neg h1, if_neg h2, if_neg h3] at h
          exact Except.noConfusion h

-- Claim theorems ---------------------------------------------------------

/-- C1: the claim demands that a Service-side NotFoundError from
GetTaskTitle(id) is rendered by `task <id>` as a single-line, non-crashing
not-found message.  Evaluating the code at a failing input shows the opposite:
with tasks {1 ↦ "Scan A"} and argv ["task", "42"], the client prints no line
at all and the NotFoundError escapes main as an uncaught fault (the
interpreter then prints a traceback and exits non-zero). -/
theorem task_id_notfound_uncaught :
    mainRun (some ⟨[(1, ("Scan A"))]⟩) [("task"), ("42")] =
      ⟨[DBusCall.getTaskTitleCall 42], [], Outcome.uncaught Fault.notFound⟩ := by
  rfl

/-- C2: the claim demands that the status command always produces output (a
summary or a clear not-yet-supported message).  Evaluating the code shows that
for every Service state, cli_status is a no-op: `status` issues no call,
prints nothing, and the process exits 0 — it degrades by silently doing
nothing. -/
theorem status_noop_eval (s : Service) :
    mainRun (some s) [("status")] = ⟨[], [], Outcome.exited 0⟩ := by
  rfl

/-- C3: the claim demands that the result command lists results or fetches an
artifact and prints not-found messages.  Evaluating the code shows that
cli_results is a no-op for every Service state and every argument form: both
`result 1` (listing mode) and `result 1 10 html` (fetch mode) issue no call,
print nothing, and exit 0. -/
theorem result_noop_eval (s : Service) (args : Args) :
    cliResults s args = ⟨[], [], Except.ok ()⟩ ∧
    mainRun (some s) [("result"), ("1")] = ⟨[], [], Outcome.exited 0⟩ ∧
    mainRun (some s) [("result"), ("1"), ("10"), ("html")] =
      ⟨[], [], Outcome.exited 0⟩ := by
  exact ⟨rfl, rfl, rfl⟩

/-- C4 counterexample: the claim states the summary line form
`<id>\t<title>\t<status-placeholder>`.  With tasks {1 ↦ "Scan A"} the single
summary line actually printed is "1\t\tScan A\t\t..." (double tabs), whose
first nine characters differ from "1\tScan A\t", the prefix any line of the
claimed form would have to carry. -/
theorem task_line_format_cex :
    (cliTask ⟨[(1, ("Scan A"))]⟩ none).lines = [("1\t\tScan A\t\t...")] ∧
    ("1\t\tScan A\t\t...").data.take 9 ≠ ("1\tScan A\t").data := by
  exact ⟨rfl, by decide⟩

/-- C4 (amended): for every Service state, the task command without an id
calls ListTaskIDs once, then GetTaskTitle exactly once for each returned id in
order and for no other id, never hits NotFound, and prints one summary line
per task of the form `<id>\t\t<title>\t\t...` (double tabs, literal three-dot
status placeholder), the title being what GetTaskTitle returned. -/
theorem task_list_calls_and_lines (s : Service) :
    cliTask s none =
      ⟨DBusCall.listTaskIDsCall :: s.listTaskIDs.map DBusCall.getTaskTitleCall,
       s.listTaskIDs.map (fun i =>
         toString i ++ "\t\t" ++ ((s.tasks.lookup i).getD "") ++ "\t\t..."),
       Except.ok ()⟩ := by
  have h : ∀ i ∈ s.listTaskIDs, (s.tasks.lookup i).isSome := fun i hi =>
    lookup_isSome_of_mem_fst s.tasks i hi
  simp [cliTask, cliTaskLoop_spec s s.listTaskIDs h]

/-- C5: with no bus interface, main reports the failure once and exits with
status 1 before any parsing or subcommand logic (no remote call is made, for
every argument vector); and a run that parses and dispatches successfully
exits with code 0. -/
theorem connect_check_and_exit_codes :
    (∀ argv, mainRun none argv = ⟨[], [connectErrorLine], Outcome.exited 1⟩) ∧
    (∀ (s : Service) (argv : List String) (args : Args),
       parseArgs argv = .ok args → (dispatch s args).result = .ok () →
       (mainRun (some s) argv).outcome = Outcome.exited 0) := by
  constructor
  · intro argv
    rfl
  · intro s argv args hp hd
    simp [mainRun, hp, hd]

/-- C5 witness: the theorem applied at concrete inputs. -/
theorem connect_check_and_exit_codes_witness :
    mainRun none [("task")] = ⟨[], [connectErrorLine], Outcome.exited 1⟩ ∧
    (mainRun (some ⟨[]⟩) [("status")]).outcome = Outcome.exited 0 := by
  exact ⟨connect_check_and_exit_codes.1 [("task")],
         connect_check_and_exit_codes.2 ⟨[]⟩ [("status")]
           ⟨("status"), none, none, ("arf")⟩ rfl rfl⟩

/-- C6: evaluating the scenario with tasks {1 ↦ "Scan A", 2 ↦ "Scan B"}:
`task` prints exactly the two summary lines (beginning "1" and "2", carrying
the two titles, with double tabs) and exits 0; `task 1` prints "ID:\t1" and
"Title:\tScan A" and exits 0; but `task 3` prints no not-found message at all:
the NotFoundError escapes as an uncaught fault, so the non-zero exit comes
only from the interpreter traceback, contradicting the claim. -/
theorem scenario_two_tasks_eval :
    mainRun (some ⟨[(1, ("Scan A")), (2, ("Scan B"))]⟩) [("task")] =
      ⟨[DBusCall.listTaskIDsCall, DBusCall.getTaskTitleCall 1,
        DBusCall.getTaskTitleCall 2],
       [("1\t\tScan A\t\t..."), ("2\t\tScan B\t\t...")],
       Outcome.exited 0⟩ ∧
    mainRun (some ⟨[(1, ("Scan A")), (2, ("Scan B"))]⟩) [("task"), ("1")] =
      ⟨[DBusCall.getTaskTitleCall 1], [("ID:\t1"), ("Title:\tScan A")],
       Outcome.exited 0⟩ ∧
    mainRun (some ⟨[(1, ("Scan A")), (2, ("Scan B"))]⟩) [("task"), ("3")] =
      ⟨[DBusCall.getTaskTitleCall 3], [], Outcome.uncaught Fault.notFound⟩ := by
  exact ⟨rfl, rfl, rfl⟩

/-- C7: for every Service state that knows no tasks, the task command issues
ListTaskIDs, prints nothing, and the process exits 0 — the empty task list is
a valid successful result, not an error. -/
theorem empty_service_task_silent (s : Service) (h : s.listTaskIDs = []) :
    mainRun (some s) [("task")] =
      ⟨[DBusCall.listTaskIDsCall], [], Outcome.exited 0⟩ := by
  have h1 : parseArgs [("task")] = .ok ⟨("task"), none, none, ("arf")⟩ := rfl
  have h2 : dispatch s ⟨("task"), none, none, ("arf")⟩ = cliTask s none := rfl
  simp [mainRun, h1, h2, cliTask, h, cliTaskLoop]

/-- C7 witness: the theorem applied to the empty Service. -/
theorem empty_service_task_silent_witness :
    mainRun (some ⟨[]⟩) [("task")] =
      ⟨[DBusCall.listTaskIDsCall], [], Outcome.exited 0⟩ := by
  exact empty_service_task_silent ⟨[]⟩ rfl

/-- C8: the FORMAT positional of the result subcommand: every accepted result
invocation carries fmt "arf" or "html"; a third positional outside the two
choices is rejected at parsing; with one or two positionals fmt defaults to
"arf"; both choice values are accepted; and a parse failure means the process
exits 2 having made no Service call at all. -/
theorem result_format_contract :
    (∀ (xs : List String) (args : Args),
       parseArgs (("result") :: xs) = .ok args →
       args.fmt = "arf" ∨ args.fmt = "html") ∧
    (∀ t r f, f ≠ ("arf") → f ≠ ("html") →
       parseArgs [("result"), t, r, f] = .error .usage) ∧
    (∀ (t : String) (args : Args),
       parseArgs [("result"), t] = .ok args → args.fmt = "arf") ∧
    (∀ (t r : String) (args : Args),
       parseArgs [("result"), t, r] = .ok args → args.fmt = "arf") ∧
    parseArgs [("result"), ("1"), ("2"), ("arf")] =
      .ok ⟨("result"), some 1, some 2, ("arf")⟩ ∧
    parseArgs [("result"), ("1"), ("2"), ("html")] =
      .ok ⟨("result"), some 1, some 2, ("html")⟩ ∧
    (∀ (s : Service) (argv : List String) (e : ParseError),
       parseArgs argv = .error e →
       mainRun (some s) argv = ⟨[], [], Outcome.exited 2⟩) := by
  refine ⟨?_, ?_, ?_, ?_, rfl, rfl, ?_⟩
  · intro xs args h
    rw [parseArgs_result_red] at h
    exact parseResultRest_fmt xs args h
  · intro t r f hf1 hf2
    rw [parseArgs_result_red]
    cases hpt : pyInt t with
    | none => simp [parseResultRest, hpt]
    | some n =>
      cases hpr : pyInt r with
      | none => simp [parseResultRest, hpt, hpr]
      | some m => simp [parseResultRest, hpt, hpr, hf1, hf2]
  · intro t args h
    rw [parseArgs_result_red] at h
    cases hpt : pyInt t with
    | none =>
      rw [parseResultRest, hpt] at h
      exact Except.noConfusion h
    | some n =>
      rw [parseResultRest, hpt] at h
      injection h with h2
      rw [← h2]
  · intro t r args h
    rw [parseArgs_result_red] at h
    cases hpt : pyInt t with
    | none =>
      rw [parseResultRest, hpt] at h
      exact Except.noConfusion h
    | some n =>
      cases hpr : pyInt r with
      | none =>
        rw [parseResultRest, hpt, hpr] at h
        exact Except.noConfusion h
      | some m =>
        rw [parseResultRest, hpt, hpr] at h
        injection h with h2
        rw [← h2]
  · intro s argv e h
    simp [mainRun, h]

/-- C8 witness: the theorem applied at concrete inputs. -/
theorem result_format_contract_witness :
    ((⟨("result"), some 1, none, ("arf")⟩ : Args).fmt = "arf" ∨
     (⟨("result"), some 1, none, ("arf")⟩ : Args).fmt = "html") ∧
    parseArgs [("result"), ("7"), ("8"), ("xml")] = .error .usage ∧
    (⟨("result"), some 1, none, ("arf")⟩ : Args).fmt = "arf" ∧
    (⟨("result"), some 3, some 4, ("arf")⟩ : Args).fmt = "arf" ∧
    mainRun (some ⟨[]⟩) [("nonsense")] = ⟨[], [], Outcome.exited 2⟩ := by
  exact ⟨result_format_contract.1 [("1")] ⟨("result"), some 1, none, ("arf")⟩ rfl,
         result_format_contract.2.1 ("7") ("8") ("xml") (by decide) (by decide),
         result_format_contract.2.2.1 ("1") ⟨("result"), some 1, none, ("arf")⟩ rfl,
         result_format_contract.2.2.2.1 ("3") ("4")
           ⟨("result"), some 3, some 4, ("arf")⟩ rfl,
         result_format_contract.2.2.2.2.2.2 ⟨[]⟩ [("nonsense")] ParseError.usage rfl⟩

/-- C9: every argument vector the parser accepts carries an action equal to
"task", "status" or "result" (each subparser sets it via set_defaults), so the
dispatch in main always takes a handled branch and the RuntimeError for an
unknown action is unreachable: no run on an accepted argv ends in an uncaught
RuntimeError. -/
theorem parsed_action_trichotomy (argv : List String) (args : Args)
    (s : Service) (msg : String) (h : parseArgs argv = .ok args) :
    (args.action = "task" ∨ args.action = "status" ∨ args.action = "result") ∧
    (mainRun (some s) argv).outcome ≠ Outcome.uncaught (Fault.runtimeError msg) := by
  have hact := parseArgs_ok_action argv args h
  refine ⟨hact, ?_⟩
  have hk : (dispatch s args).result = .ok () ∨
      (dispatch s args).result = .error .notFound := by
    rcases hact with ha | ha | ha
    · have hd : dispatch s args = cliTask s args.task_id := by
        rw [dispatch, ha, if_pos rfl]
      rw [hd]
      exact cliTask_result s args.task_id
    · have hd : dispatch s args = cliStatus s args := by
        rw [dispatch, ha, if_neg (by decide), if_pos rfl]
      rw [hd]
      exact Or.inl rfl
    · have hd : dispatch s args = cliResults s args := by
        rw [dispatch, ha, if_neg (by decide), if_neg (by decide), if_pos rfl]
      rw [hd]
      exact Or.inl rfl
  rcases hk with hk | hk <;> simp [mainRun, h, hk]

/-- C9 witness: the theorem applied at concrete inputs. -/
theorem parsed_action_trichotomy_witness :
    ((⟨("task"), none, none, ("arf")⟩ : Args).action = "task" ∨
     (⟨("task"), none, none, ("arf")⟩ : Args).action = "status" ∨
     (⟨("task"), none, none, ("arf")⟩ : Args).action = "result") ∧
    (mainRun (some ⟨[(1, ("Scan A"))]⟩) [("task")]).outcome ≠
      Outcome.uncaught (Fault.runtimeError ("x")) := by
  exact parsed_action_trichotomy [("task")] ⟨("task"), none, none, ("arf")⟩
    ⟨[(1, ("Scan A"))]⟩ ("x") rfl

/-- C10: main acquires the bus connection before the parser is even built, so
with no interface the process prints the connection error and exits 1 for
every argument vector — including ["bogus"], which the parser would reject
(and which, with a connection, would exit 2 instead). -/
theorem no_connection_exit1 :
    (∀ argv, mainRun none argv = ⟨[], [connectErrorLine], Outcome.exited 1⟩) ∧
    parseArgs [("bogus")] = .error .usage ∧
    mainRun (some ⟨[]⟩) [("bogus")] = ⟨[], [], Outcome.exited 2⟩ := by
  exact ⟨fun argv => rfl, rfl, rfl⟩
